import Mathlib

/-!
Shallow embedding of the confirmation-gated action queue of the
`social-cli-mcp` repository: the bot-side pending-action registry and its
confirm/cancel handlers (`src/telegram-bot.ts`), the CLI security gate
(`src/security-gate.ts`), the duplicate-email guard (`safe-email` module)
and the long-response chunking of the bot text handler.

External network calls (Telegram API, Twitter API, Gmail SMTP, Instagram
Graph API) are modelled as environment parameters giving their outcomes,
and the side effects the code performs are collected in explicit effect
lists, so that "the network call is never performed" is the absence of the
corresponding effect.
-/

namespace SocialCli

/-- JavaScript truthiness of an environment variable: `undefined` and the
empty string are falsy (`if (!BOT_TOKEN || !USER_ID)`). -/
def envTruthy : Option String → Bool
  | none => false
  | some s => s != ""

/-- JavaScript template-literal rendering of a possibly-undefined string
(`undefined` prints as the text "undefined"). -/
def jsStr : Option String → String
  | some s => s
  | none => "undefined"

/-- JavaScript `a || b` on possibly-undefined strings, rendered in a
template literal (an empty string is falsy and falls through to `b`). -/
def jsOr (a b : Option String) : String :=
  match a with
  | some s => if s = "" then jsStr b else s
  | none => jsStr b

/-! ## Bot-side pending-action registry (`src/telegram-bot.ts`) -/

/-- The `data` payload of a bot-side `PendingAction`, discriminated by its
`type` field (`'tweet' | 'email' | 'thread'`). -/
inductive BotPayload
  | tweet (text : String)
  | email (toAddr subject html : String)
  | thread (texts : List String)
deriving DecidableEq

/-- `PendingAction` of `telegram-bot.ts` (lines 59-66): id, type+data,
preview and the two timestamps, times in milliseconds since epoch. -/
structure BotPendingAction where
  id : String
  payload : BotPayload
  preview : String
  createdAt : Nat
  expiresAt : Nat
deriving DecidableEq

/-- The in-memory `pendingActions` map, modelled as a partial function from
action ids to actions (`Map.get`/`Map.set`/`Map.delete`). -/
def Registry : Type := String → Option BotPendingAction

/-- `pendingActions.get(id)`. -/
def Registry.get (m : Registry) (k : String) : Option BotPendingAction := m k

/-- `pendingActions.set(id, action)`. -/
def Registry.set (m : Registry) (k : String) (v : BotPendingAction) : Registry :=
  fun k' => if k' = k then some v else m k'

/-- `pendingActions.delete(id)`. -/
def Registry.delete (m : Registry) (k : String) : Registry :=
  fun k' => if k' = k then none else m k'

/-- The empty registry. -/
def Registry.empty : Registry := fun _ => none

/-- The expiry sweep of `telegram-bot.ts` lines 71-79: every minute, delete
every stored action whose `expiresAt` is strictly before `now`
(`action.expiresAt < now`). -/
def sweepExpired (m : Registry) (now : Nat) : Registry :=
  fun k =>
    match m k with
    | some a => if a.expiresAt < now then none else some a
    | none => none

/-- The sweep interval of the `setInterval` at line 79: 60 seconds. -/
def sweepIntervalMs : Nat := 60000

/-- `queueAction` (lines 87-99): store a new pending action under a freshly
generated random id with `expiresAt = now + 5 * 60 * 1000`. The random id
and the clock reading are inputs of the model. -/
def queueAction (m : Registry) (id : String) (now : Nat)
    (payload : BotPayload) (preview : String) : Registry :=
  m.set id
    { id := id
      payload := payload
      preview := preview
      createdAt := now
      expiresAt := now + 5 * 60 * 1000 }

/-- Observable side effects of the bot handlers: Telegram UI replies and
the two side-effecting network calls (posting the tweet, sending the
mail). -/
inductive BotEffect
  | answerCb (text : String)
  | editMessage (text : String)
  | twitterPost (text : String)
  | mailSend (toAddr subject html : String)
deriving DecidableEq

/-- `PostResult` returned by `TwitterClient.post` (clients/twitter). -/
structure PostResult where
  success : Bool
  platform : String := "twitter"
  postId : Option String := none
  url : Option String := none
  error : Option String := none
deriving DecidableEq

/-- Result shape of the bot-local `sendEmail` helper (lines 36-54). -/
structure EmailSendResult where
  success : Bool
  messageId : Option String := none
  error : Option String := none
deriving DecidableEq

/-- The bot-local `sendEmail` helper (`telegram-bot.ts` lines 36-54): a
null transporter (missing Gmail credentials) yields a configuration error
with no send; otherwise the SMTP outcome (message id or thrown error
message) is reported as a result value. -/
def sendEmailBot (gmailUser gmailPass : Option String)
    (smtpOutcome : Except String String)
    (toAddr subject html : String) : EmailSendResult × List BotEffect :=
  if envTruthy gmailUser && envTruthy gmailPass then
    match smtpOutcome with
    | .ok mid => ({ success := true, messageId := some mid }, [.mailSend toAddr subject html])
    | .error e => ({ success := false, error := some e }, [.mailSend toAddr subject html])
  else
    ({ success := false,
       error := some "Email not configured (GMAIL_USER/GMAIL_APP_PASSWORD missing)" }, [])

/-- Environment of one confirm-button click: the outcomes the external
services would return if called. -/
structure BotEnv where
  twitterResult : PostResult
  gmailUser : Option String
  gmailPass : Option String
  smtpOutcome : Except String String

/-- Stale-action reply of the confirm handler (line 509). -/
def expiredCbText : String := "⏰ Azione scaduta o già eseguita"

/-- Stale-action message edit of the confirm handler (line 510). -/
def expiredEditText : String := "⏰ Azione scaduta. Riprova."

/-- Success message of the tweet branch (lines 522-525). -/
def tweetPublishedText (text url : String) : String :=
  "✅ **Tweet pubblicato!**\n\n\"" ++ text.take 100 ++ "...\"\n\n🔗 " ++ url

/-- Success message of the email branch (lines 534-536). -/
def emailSentText (toAddr subject messageId : String) : String :=
  "✅ **Email inviata!**\n\n📧 A: " ++ toAddr ++ "\n📝 Oggetto: " ++ subject ++
    "\n\n🆔 " ++ messageId

/-- The confirm-button handler `bot.action(/^confirm_(.+)$/)`
(`telegram-bot.ts` lines 504-548). An unknown id answers with the
stale-action texts and leaves the registry alone; a live id is deleted
from the registry first, then the type-specific network call runs and its
result is reported. -/
def confirmHandler (st : Registry) (actionId : String) (env : BotEnv) :
    Registry × List BotEffect :=
  match st.get actionId with
  | none => (st, [.answerCb expiredCbText, .editMessage expiredEditText])
  | some action =>
    let st' := st.delete actionId
    match action.payload with
    | .tweet text =>
      let r := env.twitterResult
      let effs : List BotEffect := [.editMessage "📤 Pubblicando tweet...", .twitterPost text]
      if r.success then
        (st', effs ++ [.editMessage (tweetPublishedText text (jsStr r.url)),
                       .answerCb "✅ Azione eseguita"])
      else
        (st', effs ++ [.editMessage ("❌ Errore: " ++ jsStr r.error),
                       .answerCb "✅ Azione eseguita"])
    | .email toAddr subject html =>
      let rm := sendEmailBot env.gmailUser env.gmailPass env.smtpOutcome toAddr subject html
      let effs : List BotEffect := [.editMessage "📧 Inviando email..."] ++ rm.2
      if rm.1.success then
        (st', effs ++ [.editMessage (emailSentText toAddr subject (jsStr rm.1.messageId)),
                       .answerCb "✅ Azione eseguita"])
      else
        (st', effs ++ [.editMessage ("❌ Errore: " ++ jsStr rm.1.error),
                       .answerCb "✅ Azione eseguita"])
    | .thread _ => (st', [.answerCb "✅ Azione eseguita"])

/-- The cancel-button handler `bot.action(/^cancel_(.+)$/)` (lines
551-561): delete the action if still present, then acknowledge with the
cancellation texts in every case. -/
def cancelHandler (st : Registry) (actionId : String) : Registry × List BotEffect :=
  let st' := match st.get actionId with
    | some _ => st.delete actionId
    | none => st
  (st', [.answerCb "❌ Annullato", .editMessage "❌ Azione annullata."])

/-- Is this effect one of the side-effecting network calls? -/
def isNetworkCall : BotEffect → Bool
  | .twitterPost _ => true
  | .mailSend _ _ _ => true
  | _ => false

/-- Number of side-effecting network calls in an effect list. -/
def netCallCount (l : List BotEffect) : Nat := l.countP isNetworkCall

/-! ## CLI security gate (`src/security-gate.ts`) -/

/-- `process.env.TELEGRAM_BOT_TOKEN` / `process.env.TELEGRAM_USER_ID` as
read at module load (lines 16-17). -/
structure GateConfig where
  botToken : Option String
  userId : Option String
deriving DecidableEq

/-- The `data` argument of `requestConfirmation`, discriminated by the
`type` argument (`'tweet' | 'email' | 'instagram'`). -/
inductive GateData
  | tweet (text : String)
  | email (toAddr subject html : String)
  | instagram (caption : String) (mediaUrls : List String) (postType : String)
deriving DecidableEq

/-- How the blocking wait of `requestConfirmation` ends once the prompt was
delivered: the operator pressed confirm, pressed cancel, or the timeout
elapsed. Both `cancelled` and `timedOut` make the promise resolve `false`
(lines 113 and 158 of `security-gate.ts`). -/
inductive PollOutcome
  | confirmed
  | cancelled
  | timedOut
deriving DecidableEq

/-- The boolean the promise of `requestConfirmation` resolves with. -/
def PollOutcome.toBool : PollOutcome → Bool
  | .confirmed => true
  | _ => false

/-- Observable side effects of the security gate and its executors. -/
inductive GateEffect
  | telegramSend (text : String)
  | registerPending (id : String) (timeoutMs : Nat)
  | mailSend (toAddr subject : String)
  | tweetCall (text : String)
  | instagramCall (postType caption : String)
deriving DecidableEq

/-- The confirmation-prompt text built in lines 56-65, by `type`. -/
def gateMessage (data : GateData) (preview : String) : String :=
  match data with
  | .tweet _ =>
    "🔐 **Conferma Tweet (da CLI)**\n\n\"" ++ preview ++ "\"\n\n📊 " ++
      toString preview.length ++ "/280 caratteri\n⏰ Scade in 5 minuti"
  | .email toAddr subject _ =>
    "🔐 **Conferma Email (da CLI)**\n\n📧 **A:** " ++ toAddr ++
      "\n📝 **Oggetto:** " ++ subject ++ "\n\n**Anteprima:**\n" ++
      preview.take 200 ++ "...\n\n⏰ Scade in 5 minuti"
  | .instagram _ mediaUrls postType =>
    let typeEmoji := if postType = "reels" then "🎬"
      else if postType = "stories" then "📖" else "📸"
    "🔐 **Conferma Instagram " ++ typeEmoji ++ " (da CLI)**\n\n**Tipo:** " ++
      postType ++ "\n**Caption:** \"" ++ preview.take 150 ++
      "...\"\n**Media:** " ++ toString mediaUrls.length ++
      " file\n\n⏰ Scade in 5 minuti"

/-- `requestConfirmation` (`security-gate.ts` lines 33-168) at the level of
its observable outcome. Missing/empty credentials fail open (`return
true`, lines 39-42) with no message and no pending registration; a non-OK
`sendMessage` response fails closed (`return false`, lines 79-83) with no
pending registration; otherwise the pending action is registered with the
given timeout and the eventual poll outcome decides the boolean. The
fresh random `actionId`, the HTTP outcome `sendOk` and the operator
decision `outcome` are inputs of the model. -/
def requestConfirmation (cfg : GateConfig) (data : GateData) (preview : String)
    (actionId : String) (sendOk : Bool) (outcome : PollOutcome)
    (timeoutMs : Nat := 300000) : Bool × List GateEffect :=
  if !envTruthy cfg.botToken || !envTruthy cfg.userId then
    (true, [])
  else
    let message := gateMessage data preview
    if !sendOk then
      (false, [.telegramSend message])
    else
      (outcome.toBool, [.telegramSend message, .registerPending actionId timeoutMs])

/-- Result record of the three gated executors (`success`, optional
`messageId`/`url`/`postId`, optional `error`, optional `cancelled`; a JS
key that is never set reads as falsy/undefined). -/
structure ExecResult where
  success : Bool
  cancelled : Bool := false
  messageId : Option String := none
  url : Option String := none
  postId : Option String := none
  error : Option String := none
deriving DecidableEq

/-- The result every executor returns when `requestConfirmation` resolved
`false` (`{ success: false, cancelled: true, error: 'User cancelled or
timeout' }`). -/
def cancelledResult : ExecResult :=
  { success := false, cancelled := true, error := some "User cancelled or timeout" }

/-- First scan state of the tag stripper: remainder after the first `>`,
when one exists (`<[^>]*>` needs a closing bracket to match). -/
def splitAtGt : List Char → Option (List Char)
  | [] => none
  | c :: cs => if c = '>' then some cs else splitAtGt cs

theorem splitAtGt_length : ∀ (cs cs' : List Char), splitAtGt cs = some cs' →
    cs'.length < cs.length := by
  intro cs
  induction cs with
  | nil => intro cs' h; simp [splitAtGt] at h
  | cons c cs ih =>
    intro cs' h
    by_cases hc : c = '>'
    · simp [splitAtGt, hc] at h
      simp [← h, List.length_cons, Nat.lt_succ_self]
    · simp [splitAtGt, hc] at h
      exact Nat.lt_trans (ih cs' h) (Nat.lt_succ_self _)

/-- `html.replace(/<[^>]*>/g, '')`: drop every bracketed tag; an opening
bracket with no later closing bracket is kept literally, as the regex
cannot match it. -/
def stripTagsAux : List Char → List Char
  | [] => []
  | c :: cs =>
    if c = '<' then
      match h : splitAtGt cs with
      | some cs' => stripTagsAux cs'
      | none => c :: cs
    else
      c :: stripTagsAux cs
termination_by l => l.length
decreasing_by
  · exact Nat.lt_trans (splitAtGt_length cs cs' h) (Nat.lt_succ_self _)
  · simp [Nat.lt_succ_self]

/-- The tag stripper on strings. -/
def stripTags (s : String) : String := ⟨stripTagsAux s.data⟩

/-- `sendEmailWithConfirmation` (lines 173-220): ask for confirmation over
the email preview; a refusal returns the cancelled record with no mail
sent; otherwise the SMTP send runs once and its outcome (message id, or
the thrown error message) is reported, with a success notification sent
back over Telegram. -/
def sendEmailWithConfirmation (cfg : GateConfig) (toAddr subject html : String)
    (actionId : String) (sendOk : Bool) (outcome : PollOutcome)
    (mailOutcome : Except String String) : ExecResult × List GateEffect :=
  let preview := (stripTags html).take 200
  let gate := requestConfirmation cfg (.email toAddr subject html) preview actionId sendOk outcome
  if !gate.1 then
    (cancelledResult, gate.2)
  else
    match mailOutcome with
    | .ok mid =>
      ({ success := true, messageId := some mid },
       gate.2 ++ [.mailSend toAddr subject,
         .telegramSend ("✅ Email inviata!\n\n📧 A: " ++ toAddr ++
           "\n📝 Oggetto: " ++ subject ++ "\n🆔 " ++ mid)])
    | .error e =>
      ({ success := false, error := some e }, gate.2 ++ [.mailSend toAddr subject])

/-- `postTweetWithConfirmation` (lines 225-262): confirmation over the raw
tweet text; a refusal returns the cancelled record with no tweet posted;
otherwise `client.v2.tweet` runs once, a success yields the status URL and
a Telegram notification, a thrown error is reported as the result. -/
def postTweetWithConfirmation (cfg : GateConfig) (text : String)
    (actionId : String) (sendOk : Bool) (outcome : PollOutcome)
    (tweetOutcome : Except String String) : ExecResult × List GateEffect :=
  let gate := requestConfirmation cfg (.tweet text) text actionId sendOk outcome
  if !gate.1 then
    (cancelledResult, gate.2)
  else
    match tweetOutcome with
    | .ok tid =>
      let url := "https://twitter.com/i/status/" ++ tid
      ({ success := true, url := some url },
       gate.2 ++ [.tweetCall text,
         .telegramSend ("✅ Tweet pubblicato!\n\n\"" ++ text.take 100 ++
           "...\"\n\n🔗 " ++ url)])
    | .error e =>
      ({ success := false, error := some e }, gate.2 ++ [.tweetCall text])

/-- Result shape of the `InstagramClient` publish calls. -/
structure IgResult where
  success : Bool
  url : Option String := none
  postId : Option String := none
  error : Option String := none
deriving DecidableEq

/-- `postInstagramWithConfirmation` (lines 267-334): confirmation over the
caption; a refusal returns the cancelled record with no publish call; an
unconfigured client is an error without a publish call; otherwise the
type-appropriate publish call runs once, a successful result triggers the
Telegram notification, and the client result (or thrown error) is
returned. -/
def postInstagramWithConfirmation (cfg : GateConfig) (caption : String)
    (mediaUrls : List String) (postType : String)
    (actionId : String) (sendOk : Bool) (outcome : PollOutcome)
    (igConfigured : Bool) (igOutcome : Except String IgResult) :
    ExecResult × List GateEffect :=
  let gate := requestConfirmation cfg (.instagram caption mediaUrls postType)
    caption actionId sendOk outcome
  if !gate.1 then
    (cancelledResult, gate.2)
  else if !igConfigured then
    ({ success := false, error := some "Instagram not configured" }, gate.2)
  else
    match igOutcome with
    | .ok r =>
      let notify : List GateEffect :=
        if r.success then
          [.telegramSend ("✅ Instagram " ++ postType ++ " pubblicato!\n\n\"" ++
            caption.take 100 ++ "...\"\n\n🔗 " ++ jsOr r.url r.postId)]
        else []
      ({ success := r.success, url := r.url, postId := r.postId, error := r.error },
       gate.2 ++ [.instagramCall postType caption] ++ notify)
    | .error e =>
      ({ success := false, error := some e },
       gate.2 ++ [.instagramCall postType caption])

/-- Is this gate effect one of the side-effecting platform calls (mail
send, tweet, Instagram publish)? -/
def isGateNetworkCall : GateEffect → Bool
  | .mailSend _ _ => true
  | .tweetCall _ => true
  | .instagramCall _ _ => true
  | _ => false

/-- Number of side-effecting platform calls in a gate effect list. -/
def gateNetCallCount (l : List GateEffect) : Nat := l.countP isGateNetworkCall

/-! ## The polling wait of `requestConfirmation` (lines 89-167)

The promise executor registers the pending action and then polls every
2 seconds. Each tick first checks the timeout (`Date.now() - startTime >
timeoutMs`, resolving `false`), then scans the fetched updates for
`confirm_<id>` / `cancel_<id>` callback data (resolving `true` / `false`);
a resolving tick clears the interval, so no later tick runs. One tick is
modelled by the clock reading and the callback-data list it observes. -/

/-- One iteration of the 2-second `setInterval` poll: the value of
`Date.now()` and the `callback_query.data` values seen in `getUpdates`. -/
structure Tick where
  now : Nat
  updates : List String

/-- The interval of the poll `setInterval` (line 166): 2000 ms. -/
def pollIntervalMs : Nat := 2000

/-- Scan the updates of one tick for a decision on this action, as the
`for` loop of lines 125-161 does: the first matching `confirm_<id>`
resolves `true`, the first matching `cancel_<id>` resolves `false`. -/
def decisionFor (actionId : String) : List String → Option Bool
  | [] => none
  | d :: ds =>
    if d = "confirm_" ++ actionId then some true
    else if d = "cancel_" ++ actionId then some false
    else decisionFor actionId ds

/-- Run the poll loop over a sequence of ticks, returning the list of
`resolve` events as (time, value) pairs. A timeout tick resolves `false`
and stops; a decision tick resolves the decision and stops; otherwise the
loop continues with the next tick. (The `!pendingConfirmations.has`
early-exit of lines 103-106 is unreachable here: the entry is deleted only
by the resolving branches themselves, which also clear the interval.) -/
def pollRun (actionId : String) (startTime timeoutMs : Nat) :
    List Tick → List (Nat × Bool)
  | [] => []
  | t :: ts =>
    if timeoutMs < t.now - startTime then [(t.now, false)]
    else
      match decisionFor actionId t.updates with
      | some b => [(t.now, b)]
      | none => pollRun actionId startTime timeoutMs ts

/-- `n` quiet ticks (no operator response at all), the `(i+1)`-th onward of
the 2-second schedule started at `startTime`. -/
def quietTicks (startTime : Nat) : Nat → Nat → List Tick
  | _, 0 => []
  | i, n + 1 =>
    { now := startTime + pollIntervalMs * (i + 1), updates := [] } ::
      quietTicks startTime (i + 1) n

/-! ## Duplicate-email guard (`safe-email` module, `src/unnamed/part_009`) -/

/-- Environment of `wasEmailSentToday`: whether the Gmail OAuth credential
and token files exist, and the outcome of the `in:sent` Gmail query
(whether a message to the recipient was found today, or the error message
of a throw anywhere in the `try` block). -/
structure GmailEnv where
  oauthConfigured : Bool
  queryOutcome : Except String Bool

/-- `wasEmailSentToday` (part_009 lines 9-47): missing OAuth files skip the
check (`false`); a throw anywhere is caught and allows the send
(`return false`, fail open); otherwise the query result is reported. -/
def wasEmailSentToday (env : GmailEnv) : Bool :=
  if !env.oauthConfigured then false
  else
    match env.queryOutcome with
    | .ok found => found
    | .error _ => false

/-- Result record of `safeSendEmail`. -/
structure SafeSendResult where
  success : Bool
  messageId : Option String := none
  blocked : Bool := false
  error : Option String := none
deriving DecidableEq

/-- Observable side effect of `safeSendEmail`: the `transporter.sendMail`
call. -/
inductive MailEffect
  | sendMail (toAddr subject : String)
deriving DecidableEq

/-- `safeSendEmail` (part_009 lines 52-74): run the duplicate check first;
a duplicate blocks the send entirely; otherwise `transporter.sendMail`
runs once and its outcome (message id, or thrown error message) is the
result. -/
def safeSendEmail (env : GmailEnv) (fromAddr toAddr subject html : String)
    (mailOutcome : Except String String) : SafeSendResult × List MailEffect :=
  if wasEmailSentToday env then
    ({ success := false, blocked := true,
       error := some ("Duplicate blocked: already sent to " ++ toAddr ++ " today") }, [])
  else
    match mailOutcome with
    | .ok mid => ({ success := true, messageId := some mid }, [.sendMail toAddr subject])
    | .error e => ({ success := false, error := some e }, [.sendMail toAddr subject])

/-! ## Long-response chunking of the bot text handler
(`telegram-bot.ts` lines 474-497) -/

/-- `response.match(/.{1,4000}/gs)` on a character list: successive
maximal chunks of 4000 characters, the last chunk holding the remainder. -/
def chunkChars (l : List Char) : List (List Char) :=
  if h : l = [] then []
  else l.take 4000 :: chunkChars (l.drop 4000)
termination_by l.length
decreasing_by
  simp only [List.length_drop]
  exact Nat.sub_lt (List.length_pos.mpr h) (by decide)

/-- The messages the free-text handler sends for one assistant response: a
response over 4000 characters is sent as its 4000-character chunks, in
order; otherwise it is sent as a single message. -/
def replyChunks (response : String) : List String :=
  if response.length > 4000 then
    (chunkChars response.data).map (fun l => ⟨l⟩)
  else
    [response]

/-- Concatenation of the sent messages, in send order. -/
def concatAll (l : List String) : String := l.foldr (· ++ ·) ""

/-! ## Theorems -/

/-- Claim C5: when the Telegram bot token or the operator user id is
missing from the environment, `requestConfirmation` resolves `true` (fail
open) with no outbound message and no pending-action registration. -/
theorem C5_fail_open_when_unconfigured (cfg : GateConfig) (data : GateData)
    (preview actionId : String) (sendOk : Bool) (outcome : PollOutcome)
    (timeoutMs : Nat) (hcfg : cfg.botToken = none ∨ cfg.userId = none) :
    requestConfirmation cfg data preview actionId sendOk outcome timeoutMs
      = (true, []) := by
  rcases hcfg with h | h <;> simp [requestConfirmation, h, envTruthy]

/-- Witness for C5 at a concrete unconfigured environment. -/
theorem C5_fail_open_when_unconfigured_witness :
    requestConfirmation ⟨none, some "42"⟩ (.tweet "hi") "hi" "aa" true .cancelled 300000
      = (true, []) :=
  C5_fail_open_when_unconfigured ⟨none, some "42"⟩ (.tweet "hi") "hi" "aa" true
    .cancelled 300000 (Or.inl rfl)

/-- Claim C8: with credentials configured but the outbound Telegram
`sendMessage` call failing (non-OK response), `requestConfirmation`
resolves `false` — fail closed — and registers no pending action. -/
theorem C8_fail_closed_on_send_failure (cfg : GateConfig) (data : GateData)
    (preview actionId : String) (outcome : PollOutcome) (timeoutMs : Nat)
    (hb : envTruthy cfg.botToken = true) (hu : envTruthy cfg.userId = true) :
    requestConfirmation cfg data preview actionId false outcome timeoutMs
      = (false, [.telegramSend (gateMessage data preview)])
    ∧ ∀ id tms, GateEffect.registerPending id tms
        ∉ (requestConfirmation cfg data preview actionId false outcome timeoutMs).2 := by
  constructor
  · simp [requestConfirmation, hb, hu]
  · intro id tms
    simp [requestConfirmation, hb, hu]

/-- Witness for C8 at a concrete configured environment. -/
theorem C8_fail_closed_on_send_failure_witness :
    requestConfirmation ⟨some "tok", some "42"⟩ (.tweet "hi") "hi" "aa" false
        .confirmed 300000
      = (false, [.telegramSend (gateMessage (.tweet "hi") "hi")]) :=
  (C8_fail_closed_on_send_failure ⟨some "tok", some "42"⟩ (.tweet "hi") "hi" "aa"
    .confirmed 300000 (by decide) (by decide)).1

/-- Claim C7: `queueAction` stores the action with `createdAt = now` and
`expiresAt = now + 5 * 60 * 1000`; `requestConfirmation` defaults its
timeout to 300000 ms; the sweep runs every 60 seconds and removes exactly
the stored actions whose `expiresAt` has passed. -/
theorem C7_ttl_and_sweep (m : Registry) (id : String) (now : Nat)
    (payload : BotPayload) (preview : String) (cfg : GateConfig) (data : GateData)
    (pv aid : String) (ok : Bool) (oc : PollOutcome) (k : String) :
    (queueAction m id now payload preview).get id
      = some { id := id, payload := payload, preview := preview,
               createdAt := now, expiresAt := now + 5 * 60 * 1000 }
    ∧ requestConfirmation cfg data pv aid ok oc
      = requestConfirmation cfg data pv aid ok oc 300000
    ∧ sweepIntervalMs = 60000
    ∧ (sweepExpired m now).get k
      = match m.get k with
        | some a => if a.expiresAt < now then none else some a
        | none => none := by
  refine ⟨?_, rfl, rfl, rfl⟩
  simp [queueAction, Registry.set, Registry.get]

/-- Claim C9: `safeSendEmail` blocks the send entirely when the duplicate
check reports a message already sent today, and the duplicate check itself
fails open: a thrown error makes it report `false`, so the send
proceeds. -/
theorem C9_duplicate_check_gate (env : GmailEnv) (fromA toA subj body : String)
    (mo : Except String String) (e : String) :
    (wasEmailSentToday env = true →
      safeSendEmail env fromA toA subj body mo
        = ({ success := false, blocked := true,
             error := some ("Duplicate blocked: already sent to " ++ toA ++ " today") }, []))
    ∧ (env.queryOutcome = .error e →
        wasEmailSentToday env = false
        ∧ (safeSendEmail env fromA toA subj body mo).2
            = [.sendMail toA subj]) := by
  constructor
  · intro hdup
    simp [safeSendEmail, hdup]
  · intro herr
    have hfalse : wasEmailSentToday env = false := by
      simp [wasEmailSentToday, herr]
    refine ⟨hfalse, ?_⟩
    cases mo <;> simp [safeSendEmail, hfalse]

/-- Witness for C9: a concrete duplicate is blocked, and a concrete OAuth
error lets the send proceed. -/
theorem C9_duplicate_check_gate_witness :
    safeSendEmail ⟨true, .ok true⟩ "me@x" "you@y" "s" "b" (.ok "mid")
      = ({ success := false, blocked := true,
           error := some ("Duplicate blocked: already sent to " ++ "you@y" ++ " today") }, [])
    ∧ wasEmailSentToday ⟨true, .error "invalid_grant"⟩ = false
    ∧ (safeSendEmail ⟨true, .error "invalid_grant"⟩ "me@x" "you@y" "s" "b" (.ok "mid")).2
        = [.sendMail "you@y" "s"] := by
  refine ⟨?_, ?_, ?_⟩
  · exact (C9_duplicate_check_gate ⟨true, .ok true⟩ "me@x" "you@y" "s" "b"
      (.ok "mid") "").1 (by decide)
  · exact ((C9_duplicate_check_gate ⟨true, .error "invalid_grant"⟩ "me@x" "you@y" "s" "b"
      (.ok "mid") "invalid_grant").2 rfl).1
  · exact ((C9_duplicate_check_gate ⟨true, .error "invalid_grant"⟩ "me@x" "you@y" "s" "b"
      (.ok "mid") "invalid_grant").2 rfl).2

/-- Claim C1: with the confirmation transport configured, whenever the
operator decision is not an explicit confirm (cancel or TTL expiry, and
likewise a failed prompt delivery), every gated executor returns the
cancelled failure record and performs no side-effecting platform call. -/
theorem C1_no_network_call_without_confirmation (cfg : GateConfig)
    (toA subj body text caption : String) (mediaUrls : List String)
    (postType : String) (aid1 aid2 aid3 : String) (sendOk : Bool)
    (outcome : PollOutcome) (mo tw : Except String String) (igc : Bool)
    (igo : Except String IgResult)
    (hb : envTruthy cfg.botToken = true) (hu : envTruthy cfg.userId = true)
    (hoc : outcome ≠ PollOutcome.confirmed) :
    (sendEmailWithConfirmation cfg toA subj body aid1 sendOk outcome mo).1
      = cancelledResult
    ∧ gateNetCallCount (sendEmailWithConfirmation cfg toA subj body aid1 sendOk outcome mo).2 = 0
    ∧ (postTweetWithConfirmation cfg text aid2 sendOk outcome tw).1 = cancelledResult
    ∧ gateNetCallCount (postTweetWithConfirmation cfg text aid2 sendOk outcome tw).2 = 0
    ∧ (postInstagramWithConfirmation cfg caption mediaUrls postType aid3 sendOk outcome igc igo).1
      = cancelledResult
    ∧ gateNetCallCount (postInstagramWithConfirmation cfg caption mediaUrls postType aid3 sendOk outcome igc igo).2 = 0 := by
  have htb : outcome.toBool = false := by
    cases outcome with
    | confirmed => exact absurd rfl hoc
    | cancelled => rfl
    | timedOut => rfl
  cases sendOk <;>
    simp [sendEmailWithConfirmation, postTweetWithConfirmation,
      postInstagramWithConfirmation, requestConfirmation, hb, hu, htb,
      gateNetCallCount, isGateNetworkCall, List.countP_cons]

/-- Witness for C1 at a concrete cancelled invocation. -/
theorem C1_no_network_call_without_confirmation_witness :
    (sendEmailWithConfirmation ⟨some "tok", some "42"⟩ "a@b" "s" "<p>x</p>" "i1"
        true .cancelled (.ok "m")).1 = cancelledResult
    ∧ gateNetCallCount (postTweetWithConfirmation ⟨some "tok", some "42"⟩ "hi" "i2"
        true .timedOut (.ok "123")).2 = 0 := by
  have h := C1_no_network_call_without_confirmation ⟨some "tok", some "42"⟩
    "a@b" "s" "<p>x</p>" "hi" "cap" [] "feed" "i1" "i2" "i3" true .cancelled
    (.ok "m") (.ok "123") true (.ok ⟨true, none, none, none⟩)
    (by decide) (by decide) (by decide)
  have h' := C1_no_network_call_without_confirmation ⟨some "tok", some "42"⟩
    "a@b" "s" "<p>x</p>" "hi" "cap" [] "feed" "i1" "i2" "i3" true .timedOut
    (.ok "m") (.ok "123") true (.ok ⟨true, none, none, none⟩)
    (by decide) (by decide) (by decide)
  exact ⟨h.1, h'.2.2.2.1⟩

/-- Counterexample to claim C4: three invocations ending in three different
conditions of the taxonomy — operator cancelled, timed out, and
confirmation message delivery failed — return the very same result value,
so the conditions are not distinguishable by the caller. -/
theorem C4_error_conditions_collapsed :
    (sendEmailWithConfirmation ⟨some "tok", some "42"⟩ "a@b" "s" "b" "i1"
        true .cancelled (.ok "m")).1
      = (sendEmailWithConfirmation ⟨some "tok", some "42"⟩ "a@b" "s" "b" "i2"
          true .timedOut (.ok "m")).1
    ∧ (sendEmailWithConfirmation ⟨some "tok", some "42"⟩ "a@b" "s" "b" "i3"
        false .confirmed (.ok "m")).1
      = (sendEmailWithConfirmation ⟨some "tok", some "42"⟩ "a@b" "s" "b" "i1"
          true .cancelled (.ok "m")).1 := by
  exact ⟨rfl, rfl⟩

/-- Claim C4 (amended): the executors distinguish exactly two failure
classes as result values — gate refusal (cancelled, timed out, or failed
prompt delivery, all collapsed into the single record
`{success: false, cancelled: true, error: 'User cancelled or timeout'}`)
and underlying-API failure (`{success: false, error: <api message>}`,
with no `cancelled` flag) — and both are returned, never thrown. -/
theorem C4_gate_refusal_vs_api_failure (cfg : GateConfig)
    (toA subj body text caption : String) (mediaUrls : List String)
    (postType : String) (aid : String) (e : String)
    (mo : Except String String) (igc : Bool) (igo : Except String IgResult)
    (hb : envTruthy cfg.botToken = true) (hu : envTruthy cfg.userId = true) :
    (∀ oc, oc ≠ PollOutcome.confirmed →
      (sendEmailWithConfirmation cfg toA subj body aid true oc mo).1 = cancelledResult
      ∧ (postTweetWithConfirmation cfg text aid true oc mo).1 = cancelledResult
      ∧ (postInstagramWithConfirmation cfg caption mediaUrls postType aid true oc igc igo).1
        = cancelledResult)
    ∧ (sendEmailWithConfirmation cfg toA subj body aid false .confirmed mo).1 = cancelledResult
    ∧ (postTweetWithConfirmation cfg text aid false .confirmed mo).1 = cancelledResult
    ∧ (postInstagramWithConfirmation cfg caption mediaUrls postType aid false .confirmed igc igo).1
      = cancelledResult
    ∧ (sendEmailWithConfirmation cfg toA subj body aid true .confirmed (.error e)).1
      = { success := false, error := some e }
    ∧ (postTweetWithConfirmation cfg text aid true .confirmed (.error e)).1
      = { success := false, error := some e }
    ∧ (postInstagramWithConfirmation cfg caption mediaUrls postType aid true .confirmed
        true (.error e)).1
      = { success := false, error := some e }
    ∧ ({ success := false, error := some e } : ExecResult) ≠ cancelledResult
    ∧ cancelledResult.cancelled = true
    ∧ (sendEmailWithConfirmation cfg toA subj body aid true .confirmed (.error e)).1.cancelled
      = false
    ∧ (postTweetWithConfirmation cfg text aid true .confirmed (.error e)).1.cancelled = false
    ∧ (postInstagramWithConfirmation cfg caption mediaUrls postType aid true .confirmed
        true (.error e)).1.cancelled = false := by
  refine ⟨?_, ?_, ?_, ?_, ?_, ?_, ?_, ?_, rfl, ?_, ?_, ?_⟩
  · intro oc hoc
    have htb : oc.toBool = false := by
      cases oc with
      | confirmed => exact absurd rfl hoc
      | cancelled => rfl
      | timedOut => rfl
    refine ⟨?_, ?_, ?_⟩
    · simp [sendEmailWithConfirmation, requestConfirmation, hb, hu, htb]
    · simp [postTweetWithConfirmation, requestConfirmation, hb, hu, htb]
    · simp [postInstagramWithConfirmation, requestConfirmation, hb, hu, htb]
  · simp [sendEmailWithConfirmation, requestConfirmation, hb, hu]
  · simp [postTweetWithConfirmation, requestConfirmation, hb, hu]
  · simp [postInstagramWithConfirmation, requestConfirmation, hb, hu]
  · simp [sendEmailWithConfirmation, requestConfirmation, hb, hu, PollOutcome.toBool]
  · simp [postTweetWithConfirmation, requestConfirmation, hb, hu, PollOutcome.toBool]
  · simp [postInstagramWithConfirmation, requestConfirmation, hb, hu, PollOutcome.toBool]
  · simp [cancelledResult]
  · simp [sendEmailWithConfirmation, requestConfirmation, hb, hu, PollOutcome.toBool]
  · simp [postTweetWithConfirmation, requestConfirmation, hb, hu, PollOutcome.toBool]
  · simp [postInstagramWithConfirmation, requestConfirmation, hb, hu, PollOutcome.toBool]

/-- Witness for the amended C4 at a concrete configured environment,
covering all three executors. -/
theorem C4_gate_refusal_vs_api_failure_witness :
    (sendEmailWithConfirmation ⟨some "tok", some "42"⟩ "a@b" "s" "b" "i1"
        true .cancelled (.ok "m")).1 = cancelledResult
    ∧ (postTweetWithConfirmation ⟨some "tok", some "42"⟩ "t" "i1"
        true .timedOut (.ok "m")).1 = cancelledResult
    ∧ (postInstagramWithConfirmation ⟨some "tok", some "42"⟩ "cap" [] "feed" "i1"
        true .timedOut true (.ok ⟨true, none, none, none⟩)).1 = cancelledResult
    ∧ (sendEmailWithConfirmation ⟨some "tok", some "42"⟩ "a@b" "s" "b" "i1"
        true .confirmed (.error "quota exceeded")).1
      = { success := false, error := some "quota exceeded" }
    ∧ (postInstagramWithConfirmation ⟨some "tok", some "42"⟩ "cap" [] "feed" "i1"
        true .confirmed true (.error "quota exceeded")).1
      = { success := false, error := some "quota exceeded" } := by
  have h := C4_gate_refusal_vs_api_failure ⟨some "tok", some "42"⟩ "a@b" "s" "b"
    "t" "cap" [] "feed" "i1" "quota exceeded" (.ok "m") true
    (.ok ⟨true, none, none, none⟩) (by decide) (by decide)
  exact ⟨(h.1 .cancelled (by decide)).1, (h.1 .timedOut (by decide)).2.1,
    (h.1 .timedOut (by decide)).2.2, h.2.2.2.2.1, h.2.2.2.2.2.2.1⟩

/-- On a live id, the confirm handler always returns the registry with that
id deleted, whatever the payload and call outcomes. -/
theorem confirmHandler_deletes (st : Registry) (id : String) (env : BotEnv)
    (a : BotPendingAction) (hget : st.get id = some a) :
    (confirmHandler st id env).1 = st.delete id := by
  simp only [confirmHandler, hget]
  split <;> first
    | rfl
    | (split <;> rfl)

/-- Counterexample to claim C2: a cancel arriving after the action was
already cancelled and removed is answered with the generic cancellation
texts, not with the expired/already-executed report — the `expired` reply
exists only on the confirm handler's stale path. -/
theorem C2_stale_cancel_not_reported_expired :
    (cancelHandler
        ((cancelHandler (queueAction Registry.empty "aa" 0 (.tweet "hi") "hi") "aa").1)
        "aa").2
      = [.answerCb "❌ Annullato", .editMessage "❌ Azione annullata."]
    ∧ BotEffect.answerCb expiredCbText
        ∉ (cancelHandler
            ((cancelHandler (queueAction Registry.empty "aa" 0 (.tweet "hi") "hi") "aa").1)
            "aa").2 := by
  refine ⟨rfl, ?_⟩
  decide

/-- Claim C2 (amended): resolution succeeds at most once — a confirm or
cancel on a live id removes it from the registry, and any later confirm or
cancel on that id (or any unknown id) leaves the registry untouched,
performs no network call and returns normally; the stale confirm reports
the action as expired/already-executed, while the stale cancel merely
acknowledges with the generic cancellation texts. -/
theorem C2_single_resolution_stale_noop (st stLive : Registry) (id : String)
    (env : BotEnv) (a : BotPendingAction)
    (hstale : st.get id = none) (hlive : stLive.get id = some a) :
    confirmHandler st id env
      = (st, [.answerCb expiredCbText, .editMessage expiredEditText])
    ∧ netCallCount (confirmHandler st id env).2 = 0
    ∧ cancelHandler st id
      = (st, [.answerCb "❌ Annullato", .editMessage "❌ Azione annullata."])
    ∧ netCallCount (cancelHandler st id).2 = 0
    ∧ ((confirmHandler stLive id env).1).get id = none
    ∧ ((cancelHandler stLive id).1).get id = none := by
  refine ⟨?_, ?_, ?_, ?_, ?_, ?_⟩
  · simp [confirmHandler, hstale]
  · simp [confirmHandler, hstale, netCallCount, isNetworkCall]
  · simp [cancelHandler, hstale]
  · simp [cancelHandler, hstale, netCallCount, isNetworkCall]
  · rw [confirmHandler_deletes stLive id env a hlive]
    simp [Registry.delete, Registry.get]
  · have hl : stLive id = some a := hlive
    simp [cancelHandler, Registry.get, hl, Registry.delete]

/-- Witness for the amended C2 at a concrete registry. -/
theorem C2_single_resolution_stale_noop_witness :
    confirmHandler Registry.empty "bb" ⟨⟨true, "twitter", none, none, none⟩, none, none, .ok "m"⟩
      = (Registry.empty, [.answerCb expiredCbText, .editMessage expiredEditText])
    ∧ ((cancelHandler (queueAction Registry.empty "bb" 0 (.tweet "hi") "hi") "bb").1).get "bb"
      = none := by
  have h := C2_single_resolution_stale_noop Registry.empty
    (queueAction Registry.empty "bb" 0 (.tweet "hi") "hi") "bb"
    ⟨⟨true, "twitter", none, none, none⟩, none, none, .ok "m"⟩
    { id := "bb", payload := .tweet "hi", preview := "hi",
      createdAt := 0, expiresAt := 0 + 5 * 60 * 1000 }
    rfl (by simp [queueAction, Registry.set, Registry.get])
  exact ⟨h.1, h.2.2.2.2.2⟩

/-- Appending on the right keeps the first character. -/
theorem data_head_append (s t : String) (c : Char)
    (hc : s.data.head? = some c) : (s ++ t).data.head? = some c := by
  cases hs : s.data with
  | nil => rw [hs] at hc; simp at hc
  | cons a as =>
    rw [hs] at hc
    simp only [List.head?] at hc
    have : (s ++ t).data = a :: (as ++ t.data) := by
      show (s.data ++ t.data) = _
      rw [hs]; rfl
    rw [this]
    simpa using hc

/-- The published-tweet success message always begins with the check-mark
character. -/
theorem tweetPublished_head (text url : String) :
    (tweetPublishedText text url).data.head? = some '✅' := by
  unfold tweetPublishedText
  apply data_head_append
  apply data_head_append
  apply data_head_append
  rfl

/-- The in-progress edit text is never the published-tweet success
message. -/
theorem pub_ne_published (text url : String) :
    ("📤 Pubblicando tweet..." : String) ≠ tweetPublishedText text url := by
  intro h
  have hh := congrArg (fun s : String => s.data.head?) h
  simp only [tweetPublished_head] at hh
  exact absurd hh (by decide)

/-- The stale-action edit text is never the published-tweet success
message. -/
theorem expiredEdit_ne_published (text url : String) :
    expiredEditText ≠ tweetPublishedText text url := by
  intro h
  have hh := congrArg (fun s : String => s.data.head?) h
  simp only [tweetPublished_head] at hh
  exact absurd hh (by decide)

/-- Claim C6: two confirm clicks for the same live tweet action, processed
in sequence, post the tweet exactly once and emit exactly one
tweet-published confirmation message; the second click takes the stale
path because the action is deleted from the registry before the network
call begins. -/
theorem C6_double_confirm_single_publish (st : Registry) (id : String)
    (env env2 : BotEnv) (a : BotPendingAction) (text : String)
    (hget : st.get id = some a) (hp : a.payload = .tweet text)
    (hok : env.twitterResult.success = true) :
    ((confirmHandler st id env).1).get id = none
    ∧ netCallCount ((confirmHandler st id env).2
        ++ (confirmHandler (confirmHandler st id env).1 id env2).2) = 1
    ∧ ((confirmHandler st id env).2
        ++ (confirmHandler (confirmHandler st id env).1 id env2).2).countP
          (fun e => decide (e = BotEffect.editMessage
            (tweetPublishedText text (jsStr env.twitterResult.url)))) = 1
    ∧ (confirmHandler (confirmHandler st id env).1 id env2).2
      = [.answerCb expiredCbText, .editMessage expiredEditText] := by
  have hdel : (confirmHandler st id env).1 = st.delete id :=
    confirmHandler_deletes st id env a hget
  have hnone : (st.delete id).get id = none := by
    simp [Registry.delete, Registry.get]
  have heff1 : (confirmHandler st id env).2
      = [.editMessage "📤 Pubblicando tweet...", .twitterPost text,
         .editMessage (tweetPublishedText text (jsStr env.twitterResult.url)),
         .answerCb "✅ Azione eseguita"] := by
    simp [confirmHandler, hget, hp, hok]
  have heff2 : (confirmHandler (confirmHandler st id env).1 id env2).2
      = [.answerCb expiredCbText, .editMessage expiredEditText] := by
    rw [hdel]
    simp [confirmHandler, hnone]
  have h1 := pub_ne_published text (jsStr env.twitterResult.url)
  have h2 := expiredEdit_ne_published text (jsStr env.twitterResult.url)
  refine ⟨?_, ?_, ?_, heff2⟩
  · rw [hdel]; exact hnone
  · rw [heff1, heff2]
    simp [netCallCount, isNetworkCall, List.countP_cons]
  · rw [heff1, heff2]
    simp [List.countP_cons, h1, h2]

/-- Witness for C6 at a concrete queued tweet action. -/
theorem C6_double_confirm_single_publish_witness :
    netCallCount ((confirmHandler (queueAction Registry.empty "cc" 0 (.tweet "hello") "hello")
          "cc" ⟨⟨true, "twitter", some "1", some "u", none⟩, none, none, .ok "m"⟩).2
        ++ (confirmHandler
            (confirmHandler (queueAction Registry.empty "cc" 0 (.tweet "hello") "hello")
              "cc" ⟨⟨true, "twitter", some "1", some "u", none⟩, none, none, .ok "m"⟩).1
            "cc" ⟨⟨true, "twitter", some "1", some "u", none⟩, none, none, .ok "m"⟩).2) = 1 :=
  (C6_double_confirm_single_publish
    (queueAction Registry.empty "cc" 0 (.tweet "hello") "hello") "cc"
    ⟨⟨true, "twitter", some "1", some "u", none⟩, none, none, .ok "m"⟩
    ⟨⟨true, "twitter", some "1", some "u", none⟩, none, none, .ok "m"⟩
    { id := "cc", payload := .tweet "hello", preview := "hello",
      createdAt := 0, expiresAt := 0 + 5 * 60 * 1000 }
    "hello" rfl rfl rfl).2.1

/-- The poll loop resolves at most once: a resolving tick clears the
interval, so the run produces at most one resolve event. -/
theorem pollRun_length_le (id : String) (s t : Nat) (ticks : List Tick) :
    (pollRun id s t ticks).length ≤ 1 := by
  induction ticks with
  | nil => simp [pollRun]
  | cons tk ts ih =>
    simp only [pollRun]
    split
    · simp
    · split
      · simp
      · exact ih

/-- The poll loop never leaves the caller hanging past the deadline: as
soon as some tick observes a clock past `startTime + timeoutMs`, the run
contains exactly one resolve event. -/
theorem pollRun_resolves (id : String) (s t : Nat) (ticks : List Tick)
    (hp : ∃ tk ∈ ticks, t < tk.now - s) :
    (pollRun id s t ticks).length = 1 := by
  induction ticks with
  | nil => simp at hp
  | cons tk ts ih =>
    simp only [pollRun]
    split
    · simp
    · split
      · simp
      · rcases hp with ⟨u, hu, hlt⟩
        rcases List.mem_cons.mp hu with rfl | hu'
        · omega

        · exact ih ⟨u, hu', hlt⟩

/-- With no operator response at all, the poll loop resolves `false` at the
first scheduled tick past the deadline, which is at most one poll interval
after it. -/
theorem pollRun_quiet (id : String) (s t : Nat) :
    ∀ n i, pollIntervalMs * i ≤ t → t < pollIntervalMs * (i + n) →
    ∃ T, pollRun id s t (quietTicks s i n) = [(T, false)]
      ∧ s + t < T ∧ T ≤ s + t + pollIntervalMs := by
  intro n
  induction n with
  | zero =>
    intro i h1 h2
    simp only [Nat.add_zero] at h2
    omega
  | succ n ih =>
    intro i h1 h2
    simp only [quietTicks, pollRun]
    by_cases hc : t < pollIntervalMs * (i + 1)
    · refine ⟨s + pollIntervalMs * (i + 1), ?_, ?_, ?_⟩
      · rw [if_pos]
        simp only [Nat.add_sub_cancel_left]
        exact hc
      · omega
      · have : pollIntervalMs * (i + 1) = pollIntervalMs * i + pollIntervalMs := by ring
        omega
    · rw [if_neg]
      · simp only [decisionFor]
        exact ih (i + 1) (Nat.le_of_not_lt hc)
          (by have : pollIntervalMs * (i + 1 + n) = pollIntervalMs * (i + (n + 1)) := by ring
              omega)
      · simp only [Nat.add_sub_cancel_left]
        exact hc

/-- Claim C3: per registered action the poll loop fires exactly one
resolution — at most one resolve event on any tick sequence, exactly one
as soon as any tick lies past the deadline — and with no operator response
the caller's wait resolves to `false` at a time strictly past expiry but
at most one poll interval after it. -/
theorem C3_single_resolution_within_interval (id : String) (s t : Nat)
    (ticks : List Tick) :
    (pollRun id s t ticks).length ≤ 1
    ∧ ((∃ tk ∈ ticks, t < tk.now - s) → (pollRun id s t ticks).length = 1)
    ∧ (∀ n, t < pollIntervalMs * n →
        ∃ T, pollRun id s t (quietTicks s 0 n) = [(T, false)]
          ∧ s + t < T ∧ T ≤ s + t + pollIntervalMs) := by
  refine ⟨pollRun_length_le id s t ticks, fun hp => pollRun_resolves id s t ticks hp, ?_⟩
  intro n hn
  exact pollRun_quiet id s t n 0 (by simp) (by simpa using hn)

/-- Witness for C3: a concrete 3-second timeout resolves exactly once on a
tick past the deadline, and a quiet two-tick schedule resolves `false`. -/
theorem C3_single_resolution_within_interval_witness :
    (pollRun "aa" 0 3000 [⟨4001, []⟩]).length = 1
    ∧ ∃ T, pollRun "aa" 0 3000 (quietTicks 0 0 2) = [(T, false)]
        ∧ 0 + 3000 < T ∧ T ≤ 0 + 3000 + pollIntervalMs := by
  refine ⟨?_, ?_⟩
  · exact (C3_single_resolution_within_interval "aa" 0 3000 [⟨4001, []⟩]).2.1
      ⟨⟨4001, []⟩, by simp, by decide⟩
  · exact (C3_single_resolution_within_interval "aa" 0 3000 []).2.2 2 (by decide)

/-- Flattening the 4000-character chunks restores the original list. -/
theorem chunkChars_flatten (l : List Char) : (chunkChars l).flatten = l := by
  induction l using chunkChars.induct with
  | case1 => simp [chunkChars]
  | case2 l h ih =>
    rw [chunkChars]
    simp [h, ih, List.take_append_drop]

/-- Every chunk holds at most 4000 characters. -/
theorem chunkChars_le (l : List Char) : ∀ c ∈ chunkChars l, c.length ≤ 4000 := by
  induction l using chunkChars.induct with
  | case1 => simp [chunkChars]
  | case2 l h ih =>
    rw [chunkChars]
    simp only [h, dite_false, List.mem_cons]
    intro c hc
    rcases hc with rfl | hc
    · simp [List.length_take]
    · exact ih c hc

/-- Concatenating strings built from character lists concatenates the
lists. -/
theorem concatAll_mk (ls : List (List Char)) :
    concatAll (ls.map fun l => ⟨l⟩) = ⟨ls.flatten⟩ := by
  induction ls with
  | nil => rfl
  | cons a ls ih =>
    show (⟨a⟩ : String) ++ concatAll (ls.map fun l => ⟨l⟩) = ⟨(a :: ls).flatten⟩
    rw [ih]
    rfl

/-- Claim C10: an assistant response over 4000 characters is sent as
in-order chunks of at most 4000 characters each whose concatenation is the
original response; a response of at most 4000 characters is sent as one
single message — so every sent message fits the 4096-character platform
limit. -/
theorem C10_response_chunking (response : String) :
    (∀ msg ∈ replyChunks response, msg.length ≤ 4000 ∧ msg.length ≤ 4096)
    ∧ concatAll (replyChunks response) = response
    ∧ (response.length ≤ 4000 → replyChunks response = [response]) := by
  by_cases hlen : response.length > 4000
  · refine ⟨?_, ?_, ?_⟩
    · intro msg hmsg
      simp only [replyChunks, if_pos hlen, List.mem_map] at hmsg
      rcases hmsg with ⟨c, hc, rfl⟩
      have hle := chunkChars_le response.data c hc
      have hlen' : (String.mk c).length = c.length := rfl
      constructor
      · rw [hlen']; exact hle
      · rw [hlen']; omega
    · simp only [replyChunks, if_pos hlen]
      rw [concatAll_mk, chunkChars_flatten]
    · intro h; omega
  · have h := Nat.le_of_not_lt hlen
    refine ⟨?_, ?_, fun _ => ?_⟩
    · intro msg hmsg
      simp only [replyChunks, if_neg hlen, List.mem_singleton] at hmsg
      subst hmsg
      exact ⟨h, by omega⟩
    · simp [replyChunks, hlen, concatAll]
    · simp [replyChunks, hlen]

/-- Witness for C10: a short concrete response is sent as one message whose
concatenation is itself. -/
theorem C10_response_chunking_witness :
    replyChunks "ciao" = ["ciao"]
    ∧ concatAll (replyChunks "ciao") = "ciao" := by
  refine ⟨?_, ?_⟩
  · exact (C10_response_chunking "ciao").2.2 (by decide)
  · exact (C10_response_chunking "ciao").2.1

end SocialCli
